import Mathlib

/-!
# Verification of the OpenStack resource-handler plugin

This file gives a shallow embedding, in Lean 4, of the reconciliation logic of
`src/plugins/__init__.py` (inmanta OpenStack plugin): the dependency builders
(`openstack_dependencies`, `keystone_dependencies`), the per-handler
`check_resource` / `list_changes` / `do_changes` / `facts` methods, and the
security-group rule matching (`_compare_rule`, `_update_rules`).

Modelling conventions:
* Python dictionaries with string keys become association lists; a `dict`
  lookup that can raise `KeyError` becomes an `Except String` computation.
* The external OpenStack clients (nova / neutron / keystone) are abstracted as
  environment records whose fields are the responses of the list/find calls the
  handlers make; a client method that raises in the source (`NotFound`,
  "multiple matches") raises in the embedding (`Except.error`).
* Mutation of a Python object becomes an explicit record update of a threaded
  copy.  A method such as `check_resource`, which works on `current =
  resource.clone()` and must not touch `resource` itself, is embedded as a
  function that returns both the built `current` and the (possibly updated)
  `resource`; a Python attribute assignment to `resource` would show up as an
  update of that second component.
* Adapter mutation calls (`create_router`, `delete_security_group_rule`, ...)
  are recorded in an emitted list of call descriptions.
* The `facts` methods of the Router, Subnet and RouterPort handlers are
  declared `facts(self, ctx, resource)` but invoked internally as
  `self.facts(resource)` (src lines 968, 1045, 1116, 1170, 1205): one argument
  for two required parameters.  Python raises `TypeError` at these call sites
  before the method body runs, so the embedding reflects those paths as the
  propagated `TypeError` (see `factsTypeError`) and the code behind them as
  unreachable.
-/

/-! ## Values and Python-style dictionaries -/

/-- An attribute value inside a security-group rule dictionary. -/
inductive RVal where
  | rnone : RVal
  | rstr : String → RVal
  | rint : Int → RVal
  | rbool : Bool → RVal
deriving DecidableEq

/-- A Python dictionary with string keys, as an association list (keys unique
in all dictionaries the source builds; lookups take the first occurrence, as a
Python dict would). -/
abbrev Rule := List (String × RVal)

/-- `d[k]`, returning `none` where Python would raise `KeyError`. -/
def dictLookup (d : Rule) (k : String) : Option RVal :=
  match d with
  | [] => none
  | (k', v) :: t => if k' = k then some v else dictLookup t k

/-- `k in d`. -/
def dictHasKey (d : Rule) (k : String) : Bool :=
  match d with
  | [] => false
  | (k', _) :: t => k' = k || dictHasKey t k

/-- `d[k] = v`: replace the value of an existing key in place, else append. -/
def dictInsert (d : Rule) (k : String) (v : RVal) : Rule :=
  match d with
  | [] => [(k, v)]
  | (k', v') :: t => if k' = k then (k, v) :: t else (k', v') :: dictInsert t k v

/-- `del d[k]`, raising `KeyError` when the key is absent. -/
def dictDelete (d : Rule) (k : String) : Except String Rule :=
  match d with
  | [] => .error ("KeyError: " ++ k)
  | (k', v') :: t =>
    if k' = k then .ok t
    else (dictDelete t k).map (fun t' => (k', v') :: t')

/-- Python `k.startswith("__")`: the first two characters are underscores
(written on the character list so that it evaluates by reduction). -/
def isDunder (s : String) : Bool :=
  match s.data with
  | c1 :: c2 :: _ => c1 = '_' && c2 = '_'
  | _ => false

/-- The keys of `d` that do not start with `"__"` (the adapter-internal keys
such as `"__id"` are the `"__"`-prefixed ones). -/
def nonDunderKeys (d : Rule) : List String :=
  (d.map Prod.fst).filter (fun k => !(isDunder k))

/-- Boolean equality of two key lists viewed as sets (Python compares
`set(old_keys) != set(new_keys)`). -/
def keySetEqb (a b : List String) : Bool :=
  a.all (fun k => k ∈ b) && b.all (fun k => k ∈ a)

/-- `SecurityGroupHandler._compare_rule` (src lines 1475-1486): two rule
dictionaries match when their non-`"__"` key sets are equal and the values at
those keys agree. -/
def compare_rule (old new : Rule) : Bool :=
  let old_keys := nonDunderKeys old
  let new_keys := nonDunderKeys new
  if keySetEqb old_keys new_keys then
    old_keys.all (fun k => dictLookup old k == dictLookup new k)
  else
    false

/-! ## Security-group rule updates (`SecurityGroupHandler._update_rules`) -/

/-- An adapter mutation call made while updating security-group rules. -/
inductive SGCall where
  | createRule : Rule → SGCall
  | deleteRule : RVal → SGCall
deriving DecidableEq

/-- The neutron responses `_update_rules` consults: for a remote-group name,
the ids of the security groups carrying that name
(`list_security_groups(name=...)`). -/
structure SGEnv where
  groupsByName : RVal → List String

/-- Python `list.remove(x)`: drop the first element equal to `x`, raising
`ValueError` when there is none. -/
def listRemove {α : Type} [DecidableEq α] (l : List α) (x : α) : Except String (List α) :=
  match l with
  | [] => .error "ValueError: list.remove(x): x not in list"
  | y :: t =>
    if y = x then .ok t
    else (listRemove t x).map (fun t' => y :: t')

/-- The first element of `olds` matching `r` under `compare_rule` (the inner
`for old_rule in changes["rules"][0]` loop). -/
def firstMatching (olds : List Rule) (r : Rule) : Option Rule :=
  match olds with
  | [] => none
  | o :: t => if compare_rule o r then some o else firstMatching t r

/-- One step list of the matching loop: walk the remaining desired rules,
matching each against the first matching rule of the *original* current list
`oldsOrig`, and removing matched rules from the working copies. -/
def matchRulesGo (oldsOrig : List Rule) :
    List Rule → List Rule → List Rule → Except String (List Rule × List Rule)
  | [], oldW, newW => .ok (oldW, newW)
  | r :: rs, oldW, newW =>
    match firstMatching oldsOrig r with
    | none => matchRulesGo oldsOrig rs oldW newW
    | some o => do
      let oldW' ← listRemove oldW o
      let newW' ← listRemove newW r
      matchRulesGo oldsOrig rs oldW' newW'

/-- The matching phase shared by `_update_rules` and `list_changes` (src lines
1490-1498 and 1542-1550): walk the *original* desired list, and for the first
*original* current rule that matches, remove both from the working copies. -/
def matchRules (oldsOrig newsOrig : List Rule) : Except String (List Rule × List Rule) :=
  matchRulesGo oldsOrig newsOrig oldsOrig newsOrig

/-- The create branch of `_update_rules` for one unmatched desired rule (src
lines 1500-1525): set `ethertype`, resolve `remote_group` to
`remote_group_id` (skipping the rule when the group does not resolve), set
`security_group_id`, map protocol `"all"` to `None`, and issue the create
call.  Returns `none` when the rule is skipped. -/
def processNewRule (env : SGEnv) (group_id : RVal) (r0 : Rule) : Except String (Option Rule) := do
  let r := dictInsert r0 "ethertype" (RVal.rstr "IPv4")
  let r ← (do
    if dictHasKey r "remote_group" then
      match dictLookup r "remote_group" with
      | some v =>
        if v ≠ RVal.rnone then
          match env.groupsByName v with
          | [] => return none
          | gid :: _ => do
            let r' ← dictDelete r "remote_group"
            pure (some (dictInsert r' "remote_group_id" (RVal.rstr gid)))
        else do
          let r' ← dictDelete r "remote_group_id"
          pure (some r')
      | none => pure (some r)
    else
      pure (some r) : Except String (Option Rule))
  match r with
  | none => pure none
  | some r => do
    let r := dictInsert r "security_group_id" group_id
    match dictLookup r "protocol" with
    | none => throw "KeyError: protocol"
    | some p =>
      let r := if p = RVal.rstr "all" then dictInsert r "protocol" RVal.rnone else r
      pure (some r)

/-- The create loop of `_update_rules`: one `create_security_group_rule` call
per surviving unmatched desired rule. -/
def createCalls (env : SGEnv) (group_id : RVal) : List Rule → Except String (List SGCall)
  | [] => .ok []
  | r :: rs => do
    let c ← processNewRule env group_id r
    let rest ← createCalls env group_id rs
    match c with
    | none => pure rest
    | some r' => pure (SGCall.createRule r' :: rest)

/-- The delete loop of `_update_rules`: one `delete_security_group_rule` call
per unmatched current rule, keyed by its `"__id"` entry (`KeyError` when a
current rule has none). -/
def deleteCalls : List Rule → Except String (List SGCall)
  | [] => .ok []
  | r :: rs => do
    match dictLookup r "__id" with
    | none => throw "KeyError: __id"
    | some i => do
      let rest ← deleteCalls rs
      pure (SGCall.deleteRule i :: rest)

/-- `SecurityGroupHandler._update_rules` (src lines 1488-1532): match current
against desired rules, create the unmatched desired rules, then delete the
unmatched current rules, returning the adapter calls in order. -/
def update_rules (env : SGEnv) (group_id : RVal) (oldsOrig newsOrig : List Rule) :
    Except String (List SGCall) := do
  let (oldW, newW) ← matchRules oldsOrig newsOrig
  let creates ← createCalls env group_id newW
  let deletes ← deleteCalls oldW
  pure (creates ++ deletes)

/-! ## Dependency builders (`openstack_dependencies`, `keystone_dependencies`) -/

/-- The resource kinds the dependency managers distinguish
(`res.id.entity_type`). -/
inductive OSKind where
  | project | network | router | subnet | host | hostport | fip | user | role
deriving DecidableEq

/-- Identity of a resource inside one batch: kind plus name. -/
abbrev Rid := OSKind × String

/-- One declared resource as the dependency managers see it: its identity plus
the attributes the two builders read.  The source distinguishes `res.<attr>`
from `res.model.<attr>.name`; both carry the referenced name, so the embedding
stores the name directly (`projectRef` for `model.project.name`, `networkRef`
for `Subnet.network` / `HostPort.network`, `subnetsRef` for `Router.subnets`,
`portsRef` for the `"network"` entries of `Host.ports`, `hostRef` for
`HostPort.host`, `portRef` / `extNetRef` for `FloatingIP`, `userRef` and
`roleId` for `Role`). -/
structure DepRes where
  kind : OSKind
  name : String
  projectRef : String := ""
  networkRef : String := ""
  subnetsRef : List String := []
  portsRef : List String := []
  hostRef : String := ""
  portRef : String := ""
  extNetRef : String := ""
  userRef : String := ""
  roleId : String := ""
  requires : List Rid := []
deriving DecidableEq

/-- The per-kind name dictionaries the builders construct: a Python dict keyed
by `res.name`, so a later resource with the same kind and name overwrites an
earlier one. -/
def depFind (rs : List DepRes) (k : OSKind) (n : String) : Option DepRes :=
  (rs.filter (fun r => r.kind = k && r.name = n)).getLast?

/-- Dict indexing `d[name]`, raising `KeyError` when absent. -/
def depGet (rs : List DepRes) (k : OSKind) (n : String) : Except String DepRes :=
  match depFind rs k n with
  | none => .error ("KeyError: " ++ n)
  | some r => .ok r

/-- `set.add`: append if not already present. -/
def saddR (l : List Rid) (x : Rid) : List Rid :=
  if x ∈ l then l else l ++ [x]

/-- The accumulated `requires` relation of the batch, one entry per resource in
declaration order. -/
abbrev ReqState := List (Rid × List Rid)

/-- Add `target` to the `requires` set of `who`. -/
def addReq (st : ReqState) (who target : Rid) : ReqState :=
  st.map (fun e => if e.1 = who then (e.1, saddR e.2 target) else e)

/-- Fold a list of targets into `who`'s requires. -/
def addReqs (st : ReqState) (who : Rid) (targets : List Rid) : ReqState :=
  targets.foldl (fun s t => addReq s who t) st

/-- The network loop of `openstack_dependencies` (src lines 390-392): a network
requires its project only when that project is declared in the batch; a missing
project name is silently skipped. -/
def osDepsNetworks (rs : List DepRes) (st : ReqState) : ReqState :=
  (rs.filter (fun r => r.kind = OSKind.network)).foldl
    (fun s r =>
      if (depFind rs OSKind.project r.projectRef).isSome then
        addReq s (r.kind, r.name) (OSKind.project, r.projectRef)
      else s)
    st

/-- The router loop (src lines 394-400): the project edge is guarded like the
network one; each attached subnet name is looked up with a bare dict index,
raising `KeyError` when missing. -/
def osDepsRouters (rs : List DepRes) (st : ReqState) : Except String ReqState :=
  (rs.filter (fun r => r.kind = OSKind.router)).foldlM
    (fun s r => do
      let s := if (depFind rs OSKind.project r.projectRef).isSome then
        addReq s (r.kind, r.name) (OSKind.project, r.projectRef)
      else s
      r.subnetsRef.foldlM
        (fun s' sn => do
          let t ← depGet rs OSKind.subnet sn
          pure (addReq s' (r.kind, r.name) (t.kind, t.name)))
        s)
    st

/-- The subnet loop (src lines 402-406): bare dict indexes into the project and
network dictionaries. -/
def osDepsSubnets (rs : List DepRes) (st : ReqState) : Except String ReqState :=
  (rs.filter (fun r => r.kind = OSKind.subnet)).foldlM
    (fun s r => do
      let p ← depGet rs OSKind.project r.projectRef
      let s := addReq s (r.kind, r.name) (p.kind, p.name)
      let n ← depGet rs OSKind.network r.networkRef
      pure (addReq s (r.kind, r.name) (n.kind, n.name)))
    st

/-- The vm loop (src lines 408-412): bare dict indexes; the `"network"` entry
of each port names a *subnet* and is looked up in the subnet dictionary. -/
def osDepsVms (rs : List DepRes) (st : ReqState) : Except String ReqState :=
  (rs.filter (fun r => r.kind = OSKind.host)).foldlM
    (fun s r => do
      let p ← depGet rs OSKind.project r.projectRef
      let s := addReq s (r.kind, r.name) (p.kind, p.name)
      r.portsRef.foldlM
        (fun s' sn => do
          let t ← depGet rs OSKind.subnet sn
          pure (addReq s' (r.kind, r.name) (t.kind, t.name)))
        s)
    st

/-- The host-port loop (src lines 414-417): bare dict indexes; note that the
source looks the port's `network` attribute up in the *subnet* dictionary. -/
def osDepsPorts (rs : List DepRes) (st : ReqState) : Except String ReqState :=
  (rs.filter (fun r => r.kind = OSKind.hostport)).foldlM
    (fun s r => do
      let p ← depGet rs OSKind.project r.projectRef
      let s := addReq s (r.kind, r.name) (p.kind, p.name)
      let sn ← depGet rs OSKind.subnet r.networkRef
      let s := addReq s (r.kind, r.name) (sn.kind, sn.name)
      let h ← depGet rs OSKind.host r.hostRef
      pure (addReq s (r.kind, r.name) (h.kind, h.name)))
    st

/-- The floating-ip loop (src lines 419-421): bare dict indexes into the
network and host-port dictionaries. -/
def osDepsFips (rs : List DepRes) (st : ReqState) : Except String ReqState :=
  (rs.filter (fun r => r.kind = OSKind.fip)).foldlM
    (fun s r => do
      let n ← depGet rs OSKind.network r.extNetRef
      let s := addReq s (r.kind, r.name) (n.kind, n.name)
      let p ← depGet rs OSKind.hostport r.portRef
      pure (addReq s (r.kind, r.name) (p.kind, p.name)))
    st

/-- `openstack_dependencies` (src lines 357-421): build the per-kind name
dictionaries, then add the inferred `requires` edges kind by kind, returning
the final requires sets per resource in declaration order. -/
def openstack_dependencies (rs : List DepRes) : Except String ReqState := do
  let st : ReqState := rs.map (fun r => ((r.kind, r.name), r.requires))
  let st := osDepsNetworks rs st
  let st ← osDepsRouters rs st
  let st ← osDepsSubnets rs st
  let st ← osDepsVms rs st
  let st ← osDepsPorts rs st
  osDepsFips rs st

/-- `keystone_dependencies` (src lines 1678-1701): every role must name a
project and a user declared in the batch; a missing one raises an Exception
naming the role and the missing resource.  The role then requires both. -/
def keystone_dependencies (rs : List DepRes) : Except String ReqState := do
  let st : ReqState := rs.map (fun r => ((r.kind, r.name), r.requires))
  (rs.filter (fun r => r.kind = OSKind.role)).foldlM
    (fun s r => do
      if (depFind rs OSKind.project r.projectRef).isNone then
        throw ("The project " ++ r.projectRef ++ " of role " ++ r.roleId ++
          " is not defined in the model.")
      else if (depFind rs OSKind.user r.userRef).isNone then
        throw ("The user " ++ r.userRef ++ " of role " ++ r.roleId ++
          " is not defined in the model.")
      else
        let s := addReq s (r.kind, r.name) (OSKind.project, r.projectRef)
        pure (addReq s (r.kind, r.name) (OSKind.user, r.userRef)))
    st

/-! ## `VMHandler` (`openstack::Host`) -/

/-- One entry of `Host.ports`: the port dictionaries the exporter attaches to a
virtual machine (`name`, `address`, `network`, `dhcp`, `index`). -/
structure VMPort where
  name : String
  address : Option String
  network : String
  dhcp : Bool
  index : Int
deriving DecidableEq

/-- The `openstack::Host` resource as `VMHandler` reads it. -/
structure HostRes where
  name : String
  flavor : String
  image : String
  key_name : String
  key_value : String
  user_data : String
  ports : List VMPort
  security_groups : List String
  purged : Bool
deriving DecidableEq

/-- A nova server as far as `VMHandler` observes it: its name and its attached
security-group names. -/
structure NServer where
  name : String
  sgs : List String
deriving DecidableEq

/-- The nova-side state `VMHandler` reads and mutates. -/
structure NovaCloud where
  servers : List NServer
  keypairs : List (String × String)
deriving DecidableEq

/-- The read-only lookups `VMHandler` makes besides the server list: flavor
name resolution, neutron port/subnet lookups for nic building, and the
security-group names known to neutron. -/
structure VMEnv where
  flavors : String → Option String
  portIdByName : String → Option String
  subnetNetByName : String → Option String
  sgNames : List String

/-- A nic entry passed to `servers.create` by `_create_nic_config`. -/
inductive Nic where
  | byPort : String → Nic
  | byNet : String → Option String → Nic
deriving DecidableEq

/-- An adapter mutation call issued by `VMHandler.do_changes`. -/
inductive NovaCall where
  | keypairCreate : String → String → NovaCall
  | serversCreate : String → String → List String → String → String → String →
      List (Option Nic) → NovaCall
  | serversDelete : String → NovaCall
  | addSecurityGroup : String → String → NovaCall
  | removeSecurityGroup : String → String → NovaCall
deriving DecidableEq

/-- `VMHandler._create_nic_config` (src lines 649-662). -/
def vmCreateNicConfig (env : VMEnv) (p : VMPort) : Option Nic :=
  match env.portIdByName p.name with
  | some pid => some (Nic.byPort pid)
  | none =>
    match env.subnetNetByName p.network with
    | none => none
    | some nid =>
      if !p.dhcp && p.address.isSome then some (Nic.byNet nid p.address)
      else some (Nic.byNet nid none)

/-- Stable insertion into a list sorted by a boolean key order (keeps an
element after existing elements with an equal key, as Python's stable
`sorted` does). -/
def stableInsert {α : Type} (le : α → α → Bool) (x : α) : List α → List α
  | [] => [x]
  | y :: t => if le y x then y :: stableInsert le x t else x :: y :: t

/-- Python's stable `sorted` by a key order. -/
def stableSort {α : Type} (le : α → α → Bool) (l : List α) : List α :=
  l.foldl (fun acc x => stableInsert le x acc) []

/-- `VMHandler._build_nic_list` (src lines 664-669): ports with index `> 0`
sorted by index, followed by the index-`0` ports sorted by network name. -/
def vmBuildNicList (env : VMEnv) (ports : List VMPort) : List (Option Nic) :=
  let no_sort := stableSort (fun a b => a.network ≤ b.network)
    (ports.filter (fun p => p.index = 0))
  let sort := stableSort (fun a b => a.index ≤ b.index)
    (ports.filter (fun p => 0 < p.index))
  sort.map (vmCreateNicConfig env) ++ no_sort.map (vmCreateNicConfig env)

/-- `VMHandler._build_sg_list` (src lines 671-677): keep the desired group
names that resolve in neutron, silently dropping the rest. -/
def vmBuildSgList (env : VMEnv) (groups : List String) : List String :=
  groups.foldr (fun g acc => if g ∈ env.sgNames then g :: acc else acc) []

/-- `VMHandler.get_vm` (src lines 587-598): the servers answering a name
search; none, one, or an error for several. -/
def vmGetVm (cloud : NovaCloud) (name : String) : Except String (Option NServer) :=
  match cloud.servers.filter (fun s => s.name = name) with
  | [] => .ok none
  | [s] => .ok (some s)
  | _ => .error ("Multiple virtual machines with name " ++ name ++ " exist.")

/-- `nova servers.find(name=...)`: first match or `NotFound`. -/
def vmFindServer (cloud : NovaCloud) (name : String) : Except String NServer :=
  match cloud.servers.filter (fun s => s.name = name) with
  | [] => .error ("NotFound: no server with a name of " ++ name)
  | s :: _ => .ok s

/-- `VMHandler.check_resource` (src lines 600-616): clone the desired
resource, then mark it purged when no server answers the name search, or copy
the server's security groups otherwise.  Returns the built clone together with
the threaded desired resource. -/
def vmCheckResource (cloud : NovaCloud) (res : HostRes) :
    Except String (HostRes × HostRes) := do
  let current := res
  let server ← vmGetVm cloud res.name
  match server with
  | none => pure ({ current with purged := true }, res)
  | some s => pure ({ current with purged := false, security_groups := s.sgs }, res)

/-- The changeset for a `Host` resource: one optional `(current, desired)`
pair per declared field. -/
structure VMChanges where
  name : Option (String × String) := none
  flavor : Option (String × String) := none
  image : Option (String × String) := none
  key_name : Option (String × String) := none
  key_value : Option (String × String) := none
  user_data : Option (String × String) := none
  ports : Option (List VMPort × List VMPort) := none
  security_groups : Option (List String × List String) := none
  purged : Option (Bool × Bool) := none
deriving DecidableEq

/-- The empty changeset (no field differs). -/
def VMChanges.empty : VMChanges := {}

/-- Modelled from the spec: the generic field-level diff of the inmanta
`ResourceHandler` base class, which `VMHandler` inherits and which is not part
of `src/` — "iterates every declared field; for scalar fields, a changed entry
is recorded when current ≠ desired" (spec section 4.3), recording the
`(current, desired)` pair per differing field. -/
def vmDiff (current desired : HostRes) : VMChanges :=
  { name := if current.name ≠ desired.name then some (current.name, desired.name) else none
    flavor := if current.flavor ≠ desired.flavor then some (current.flavor, desired.flavor) else none
    image := if current.image ≠ desired.image then some (current.image, desired.image) else none
    key_name := if current.key_name ≠ desired.key_name then
      some (current.key_name, desired.key_name) else none
    key_value := if current.key_value ≠ desired.key_value then
      some (current.key_value, desired.key_value) else none
    user_data := if current.user_data ≠ desired.user_data then
      some (current.user_data, desired.user_data) else none
    ports := if current.ports ≠ desired.ports then some (current.ports, desired.ports) else none
    security_groups := if current.security_groups ≠ desired.security_groups then
      some (current.security_groups, desired.security_groups) else none
    purged := if current.purged ≠ desired.purged then
      some (current.purged, desired.purged) else none }

/-- Python `set(l)` difference `set(a) - set(b)`, iterated in first-occurrence
order of `a` (the call multiset does not depend on the iteration order the
Python hash sets would use). -/
def setDiff (a b : List String) : List String :=
  (a.eraseDups).filter (fun x => x ∉ b)

/-- `VMHandler.do_changes` (src lines 679-709): always ensure the keypair
exists first; then, when `"purged"` is in the changes, create or delete the
server; otherwise, when `"security_groups"` is, add and remove groups.
Returns the emitted calls, the updated cloud, and the reported `changed`
flag (always `True`). -/
def vmDoChanges (env : VMEnv) (cloud : NovaCloud) (res : HostRes) (changes : VMChanges) :
    Except String (List NovaCall × NovaCloud × Bool) := do
  let keys := cloud.keypairs.map Prod.fst
  let (calls0, cloud) :=
    if res.key_name ∈ keys then ([], cloud)
    else ([NovaCall.keypairCreate res.key_name res.key_value],
      { cloud with keypairs := cloud.keypairs ++ [(res.key_name, res.key_value)] })
  match changes.purged with
  | some (p0, p1) =>
    if p0 then do
      let fid ← match env.flavors res.flavor with
        | none => throw ("NotFound: no flavor with a name of " ++ res.flavor)
        | some f => pure f
      let nics := vmBuildNicList env res.ports
      let sgl := vmBuildSgList env res.security_groups
      pure (calls0 ++ [NovaCall.serversCreate res.name fid sgl res.image res.key_name
          res.user_data nics],
        { cloud with servers := cloud.servers ++ [⟨res.name, sgl⟩] }, true)
    else if p1 then do
      let s ← vmFindServer cloud res.name
      pure (calls0 ++ [NovaCall.serversDelete s.name],
        { cloud with servers := cloud.servers.eraseP (fun x => x.name = res.name) }, true)
    else
      pure (calls0, cloud, true)
  | none =>
    match changes.security_groups with
    | some (cur, des) => do
      let s ← vmFindServer cloud res.name
      let toAdd := setDiff des cur
      let toRemove := setDiff cur des
      let addCalls := toAdd.map (fun g => NovaCall.addSecurityGroup s.name g)
      let removeCalls := toRemove.map (fun g => NovaCall.removeSecurityGroup s.name g)
      let upd := fun (x : NServer) =>
        if x.name = res.name then
          { x with sgs := (x.sgs ++ toAdd).filter (fun g => g ∉ toRemove) }
        else x
      pure (calls0 ++ addCalls ++ removeCalls,
        { cloud with servers := cloud.servers.map upd }, true)
    | none => pure (calls0, cloud, true)

/-- Modelled from the spec: one pass of the reconciliation driver for a Host —
`check_resource`, then the generic diff, then `do_changes` only when the
changeset is non-empty ("If Changeset is empty → Converged, no adapter
mutation call is made", spec section 4.2 step 3).  The driver itself lives in
the inmanta agent, outside `src/`. -/
def vmOnePass (env : VMEnv) (cloud : NovaCloud) (res : HostRes) :
    Except String (VMChanges × NovaCloud) := do
  let (cur, _) ← vmCheckResource cloud res
  let ch := vmDiff cur res
  if ch = VMChanges.empty then
    pure (ch, cloud)
  else do
    let (_, cloud', _) ← vmDoChanges env cloud res ch
    pure (ch, cloud')

/-- Two read→diff→apply passes for a Host against the same desired state: the
changesets of the first and the second pass. -/
def vmTwoPass (env : VMEnv) (cloud : NovaCloud) (res : HostRes) :
    Except String (VMChanges × VMChanges) := do
  let (ch1, cloud1) ← vmOnePass env cloud res
  let (ch2, _) ← vmOnePass env cloud1 res
  pure (ch1, ch2)

/-! ## `RouterHandler` (`openstack::Router`) -/

/-- A neutron router as returned by `list_routers`: its name, id, optional
external gateway network id, and extra routes. -/
structure RouterFactsD where
  nameF : String
  idF : String
  ext_gw : Option String
  routesF : List (String × String)
deriving DecidableEq

/-- The adapter responses `RouterHandler` can still reach: the router list
(for the `facts` method when it is invoked with its declared signature) and
the resolved project id (`get_project_id`, the only lookup `do_changes`
reaches before its internal `facts` call raises). -/
structure RouterEnv where
  listRoutersResp : Option (List RouterFactsD)
  projectId : Option String

/-- The `TypeError` raised by every *internal* `self.facts(resource)` call:
the `facts` methods of `RouterHandler`, `SubnetHandler` and
`RouterPortHandler` are declared `facts(self, ctx, resource)` (src lines
1087, 1182, 1277), but `check_resource` / `do_changes` call them with a
single argument (src lines 968, 1045, 1116, 1170, 1205), so the call raises
before the method body runs. -/
def factsTypeError : String :=
  "TypeError: facts() missing 1 required positional argument: resource"

/-- The `openstack::Router` resource. -/
structure RouterRes where
  name : String
  project : String
  subnets : List String
  gateway : String
  ports : List String
  routes : List (String × String)
  purged : Bool
  idA : String
deriving DecidableEq

/-- The null uuid used as the "no id" marker. -/
def NULL_UUID : String := "00000000-0000-0000-0000-000000000000"

/-- String-keyed dictionary update for string values (`d[k] = v`). -/
def sdictInsert (d : List (String × String)) (k v : String) : List (String × String) :=
  match d with
  | [] => [(k, v)]
  | (k', v') :: t => if k' = k then (k, v) :: t else (k', v') :: sdictInsert t k v

/-- The body of `RouterHandler.facts` (src lines 1087-1106) as it runs when
invoked with its declared `(self, ctx, resource)` signature (the agent
framework does so for fact reporting): list routers by name, filter again on
the exact name, and return the router only when exactly one remains.  The
*internal* one-argument call sites never reach this body — see
`factsTypeError`. -/
def routerFacts (env : RouterEnv) (res : RouterRes) : Option RouterFactsD :=
  match env.listRoutersResp with
  | none => none
  | some routers =>
    match routers.filter (fun rt => rt.nameF = res.name) with
    | [rt] => some rt
    | _ => none

/-- `RouterHandler.check_resource` (src lines 966-1018): after cloning the
desired resource (line 967), line 968 calls the three-parameter `facts`
method as `self.facts(resource)`, which raises `TypeError` on every call —
the method never returns a populated clone, and the observation code below it
(lines 970-1018) is unreachable. -/
def routerCheckResource (_env : RouterEnv) (res : RouterRes) :
    Except String (RouterRes × RouterRes) :=
  let _current := res
  .error factsTypeError

/-- The changeset for a Router resource. -/
structure RouterChanges where
  purged : Option (Bool × Bool) := none
  name : Option (String × String) := none
  subnets : Option (List String × List String) := none
  gateway : Option (String × String) := none
  routes : Option (List (String × String) × List (String × String)) := none
deriving DecidableEq

/-- An adapter mutation call `RouterHandler.do_changes` can actually issue.
The subnet (`add_interface_router` / `remove_interface_router`), gateway and
route calls of src lines 1048-1083 sit behind the internal `facts` call of
line 1045 and are unreachable — see `factsTypeError`. -/
inductive RouterCall where
  | createRouter : String → String → RouterCall
  | deleteRouter : String → RouterCall
  | updateRouterName : String → String → RouterCall
deriving DecidableEq

/-- `RouterHandler.do_changes` (src lines 1020-1085): raise `SkipResource`
without a project id; perform the existence transition (create on
`purged[1] = False`, delete on `purged = (False, True)`) or the rename;
return only after a delete (`if deleted: return changed`, line 1042).  Every
other path then executes line 1045, `router_facts = self.facts(resource)` —
a single-argument call of the three-parameter `facts` method — which raises
`TypeError`, so the subnet/gateway/route blocks below it never run.  Returns
the adapter calls made together with the outcome (normal return or the
propagated exception). -/
def routerDoChanges (env : RouterEnv) (res : RouterRes) (changes : RouterChanges) :
    List RouterCall × Except String Bool :=
  match env.projectId with
  | none => ([], .error "SkipResource: Cannot create network when project id is not yet known.")
  | some pid =>
    let (calls, changed, deleted) :=
      match changes.purged with
      | some (p0, p1) =>
        if !p1 then ([RouterCall.createRouter res.name pid], true, false)
        else if p1 && !p0 then ([RouterCall.deleteRouter res.idA], true, true)
        else ([], false, false)
      | none =>
        match changes.name with
        | some _ => ([RouterCall.updateRouterName res.idA res.name], true, false)
        | none => ([], false, false)
    if deleted then
      (calls, .ok changed)
    else
      (calls, .error factsTypeError)

/-! ## `SubnetHandler` (`openstack::Subnet`) -/

/-- A generic attribute value for fields whose observed and desired sides mix
Python types (e.g. the `id` attribute is set to the string uuid when found and
to the integer `0` when purged). -/
inductive PVal where
  | vnone : PVal
  | vstr : String → PVal
  | vint : Int → PVal
  | vbool : Bool → PVal
  | vlist : List String → PVal
  | vmap : List (String × String) → PVal
deriving DecidableEq

/-- A neutron subnet as `SubnetHandler` reads it. -/
structure SubnetFactsD where
  nameS : String
  idS : String
  cidr : String
  enable_dhcp : Bool
  network_idS : String
  allocation_pools : List (String × String)
deriving DecidableEq

/-- The `openstack::Subnet` resource. -/
structure SubnetRes where
  name : String
  project : String
  network_address : String
  dhcp : Bool
  allocation_start : String
  allocation_end : String
  network : String
  network_id : String
  purged : Bool
  idA : PVal
deriving DecidableEq

/-- The neutron responses `SubnetHandler.check_resource` consults. -/
structure SubnetEnv where
  listSubnetsResp : Option (List SubnetFactsD)

/-- The body of `SubnetHandler.facts` (src lines 1181-1198) as it runs when
invoked with its declared `(self, ctx, resource)` signature: list subnets by
name, filter on the exact name, return the subnet only when exactly one
remains.  The internal one-argument call sites (src lines 1116 and 1170)
never reach this body — see `factsTypeError`. -/
def subnetFacts (env : SubnetEnv) (res : SubnetRes) : Option SubnetFactsD :=
  match env.listSubnetsResp with
  | none => none
  | some subnets =>
    match subnets.filter (fun sn => sn.nameS = res.name) with
    | [sn] => some sn
    | _ => none

/-- `SubnetHandler.check_resource` (src lines 1111-1137): after cloning the
desired resource (line 1115), line 1116 calls the three-parameter `facts`
method as `self.facts(resource)`, which raises `TypeError` on every call —
the method never returns a populated clone, and the observation code below
it (lines 1118-1137) is unreachable. -/
def subnetCheckResource (_env : SubnetEnv) (res : SubnetRes) :
    Except String (SubnetRes × SubnetRes) :=
  let _current := res
  .error factsTypeError

/-! ## `RouterPortHandler` (`openstack::RouterPort`) -/

/-- The null id marker (32 zeros, no dashes). -/
def NULL_ID : String := "00000000000000000000000000000000"

/-- A neutron port as `RouterPortHandler` reads it. -/
structure PortFactsD where
  namePf : String
  idPf : String
  device_id : String
  network_idPf : String
deriving DecidableEq

/-- The `openstack::RouterPort` resource. -/
structure RouterPortRes where
  name : String
  project : String
  address : String
  subnet : String
  router : String
  network : String
  purged : Bool
  idA : PVal
  subnet_id : String
  router_id : String
  network_id : String
deriving DecidableEq

/-- The neutron responses `RouterPortHandler.check_resource` consults. -/
structure RouterPortEnv where
  listPortsResp : Option (List PortFactsD)

/-- The body of `RouterPortHandler.facts` (src lines 1277-1293) as it runs
when invoked with its declared `(self, ctx, resource)` signature: list ports
by name, filter on the exact name, return the port only when exactly one
remains.  The internal one-argument call site (src line 1205) never reaches
this body — see `factsTypeError`. -/
def routerPortFacts (env : RouterPortEnv) (res : RouterPortRes) : Option PortFactsD :=
  match env.listPortsResp with
  | none => none
  | some ports =>
    match ports.filter (fun p => p.namePf = res.name) with
    | [p] => some p
    | _ => none

/-- `RouterPortHandler.check_resource` (src lines 1203-1224): after cloning
the desired resource (line 1204), line 1205 calls the three-parameter `facts`
method as `self.facts(resource)`, which raises `TypeError` on every call —
the method never returns a populated clone, and the observation code below
it (lines 1207-1224) is unreachable. -/
def routerPortCheckResource (_env : RouterPortEnv) (res : RouterPortRes) :
    Except String (RouterPortRes × RouterPortRes) :=
  let _current := res
  .error factsTypeError

/-! ## `HostPortHandler` (`openstack::HostPort`) -/

/-- A neutron port as `HostPortHandler.get_port` reads it: the fixed ip
addresses, the port-security flag and the port name. -/
structure HPortD where
  fixedIps : List String
  port_security_enabled : Bool
  nameHp : String
deriving DecidableEq

/-- The `openstack::HostPort` resource. -/
structure HostPortRes where
  name : String
  project : String
  address : String
  subnet : String
  host : String
  network : String
  portsecurity : Bool
  dhcp : Bool
  port_index : Int
  purged : Bool
  idA : PVal
deriving DecidableEq

/-- The adapter responses `HostPortHandler.check_resource` consults:
`get_project_id` (never raises, src lines 790-805), `list_networks` keyed by
project id and name (raises on several matches), `nova servers.findall` by
name (raises on several matches), and `list_ports` keyed by network and
device. -/
structure HostPortEnv where
  projectId : Option String
  networksByName : Option String → String → List String
  hostsByName : String → List String
  portsByNetDev : Option String → String → List HPortD

/-- `NeutronHandler.get_network_id` (src lines 807-823): none, one id, or an
error for several networks with the name. -/
def hpGetNetworkId (env : HostPortEnv) (pid : Option String) (name : String) :
    Except String (Option String) :=
  match env.networksByName pid name with
  | [] => .ok none
  | [nid] => .ok (some nid)
  | _ => .error ("Found more than one network with name " ++ name)

/-- `NeutronHandler.get_host` (src lines 858-872): none, one vm id, or an
error for several vms with the name. -/
def hpGetHost (env : HostPortEnv) (name : String) : Except String (Option String) :=
  match env.hostsByName name with
  | [] => .ok none
  | [vid] => .ok (some vid)
  | _ => .error ("Found more than one VM with name " ++ name)

/-- `HostPortHandler.get_port` (src lines 1298-1302): the first port on the
network attached to the device, if any. -/
def hpGetPort (env : HostPortEnv) (nid : Option String) (dev : String) : Option HPortD :=
  match env.portsByNetDev nid dev with
  | [] => none
  | p :: _ => some p

/-- `HostPortHandler.check_resource` (src lines 1304-1328): clone the desired
resource; resolve project, network and vm; read the managed port; populate
address (indexing the first fixed ip — an `IndexError` when there is none),
port security and name from it, or mark the clone purged.  Returns the clone
and the threaded desired resource. -/
def hostPortCheckResource (env : HostPortEnv) (res : HostPortRes) :
    Except String (HostPortRes × HostPortRes) := do
  let current := res
  let pid := env.projectId
  let nid ← hpGetNetworkId env pid res.network
  let vm ← hpGetHost env res.host
  let port := match vm with
    | some vid => hpGetPort env nid vid
    | none => none
  match port with
  | some p => do
    let current ←
      if !res.dhcp then
        match p.fixedIps with
        | [] => throw "IndexError: list index out of range"
        | ip :: _ => pure { current with address := ip }
      else
        pure current
    pure ({ current with
        portsecurity := p.port_security_enabled,
        name := p.nameHp }, res)
  | none =>
    pure ({ current with
        idA := PVal.vint 0,
        purged := true,
        address := "" }, res)

/-! ## `SecurityGroupHandler` (`openstack::SecurityGroup`) -/

/-- A neutron security-group rule as `check_resource` reads it. -/
structure SGRuleD where
  idR : String
  ethertype : String
  protocol : Option String
  remote_ip : Option String
  remote_group_id : Option String
  direction : String
  port_range_min : Option Int
  port_range_max : Option Int
deriving DecidableEq

/-- A neutron security group. -/
structure SGD where
  nameG : String
  descriptionG : String
  idG : String
  security_group_rules : List SGRuleD
deriving DecidableEq

/-- The `openstack::SecurityGroup` resource. -/
structure SGRes where
  name : String
  project : String
  description : String
  manage_all : Bool
  rules : List Rule
  purged : Bool
deriving DecidableEq

/-- The neutron responses `SecurityGroupHandler.check_resource` consults:
groups by name and by id (`get_security_group`, src lines 1422-1435, returns
the first match or nothing). -/
structure SGCheckEnv where
  sgByName : String → List SGD
  sgById : String → List SGD

/-- `SecurityGroupHandler.get_security_group` keyed by name. -/
def sgGetByName (env : SGCheckEnv) (name : String) : Option SGD :=
  match env.sgByName name with
  | [] => none
  | g :: _ => some g

/-- `SecurityGroupHandler.get_security_group` keyed by id. -/
def sgGetById (env : SGCheckEnv) (gid : String) : Option SGD :=
  match env.sgById gid with
  | [] => none
  | g :: _ => some g

/-- The translation of one observed IPv4 rule into the dictionary
`check_resource` appends (src lines 1451-1471): `__id`, protocol (`None`
becomes `"all"`), remote ip or resolved remote group name (defaulting the
remote ip to `"0.0.0.0/0"`), direction and the port range.  Resolving a
remote group id that the adapter does not know is a `TypeError` in the
source (`rgi["name"]` on `None`). -/
def sgObservedRule (env : SGCheckEnv) (rule : SGRuleD) : Except String Rule := do
  let r : Rule := [("__id", RVal.rstr rule.idR)]
  let r := r ++ [("protocol", match rule.protocol with
    | none => RVal.rstr "all"
    | some p => RVal.rstr p)]
  let r ← (match rule.remote_ip with
    | some p => pure (r ++ [("remote_ip_prefix", RVal.rstr p)])
    | none =>
      match rule.remote_group_id with
      | some gid =>
        match sgGetById env gid with
        | none => throw "TypeError: NoneType object is not subscriptable"
        | some rgi => pure (r ++ [("remote_group", RVal.rstr rgi.nameG)])
      | none => pure (r ++ [("remote_ip_prefix", RVal.rstr "0.0.0.0/0")]) :
    Except String Rule)
  pure (r ++ [("direction", RVal.rstr rule.direction),
    ("port_range_min", match rule.port_range_min with
      | none => RVal.rnone
      | some n => RVal.rint n),
    ("port_range_max", match rule.port_range_max with
      | none => RVal.rnone
      | some n => RVal.rint n)])

/-- The rule loop of `check_resource`: keep only `IPv4` rules, translating
each. -/
def sgObservedRules (env : SGCheckEnv) : List SGRuleD → Except String (List Rule)
  | [] => .ok []
  | rule :: rest => do
    if rule.ethertype ≠ "IPv4" then
      sgObservedRules env rest
    else do
      let r ← sgObservedRule env rule
      let rs ← sgObservedRules env rest
      pure (r :: rs)

/-- `SecurityGroupHandler.check_resource` (src lines 1437-1473): clone the
desired resource; when no group answers the name, mark the clone purged with
no rules; otherwise copy the description and the translated IPv4 rules.
Returns the clone and the threaded desired resource. -/
def sgCheckResource (env : SGCheckEnv) (res : SGRes) : Except String (SGRes × SGRes) := do
  let current := res
  match sgGetByName env res.name with
  | none => pure ({ current with purged := true, rules := [] }, res)
  | some sg => do
    let rules ← sgObservedRules env sg.security_group_rules
    pure ({ current with description := sg.descriptionG, rules := rules }, res)

/-- The changeset for a SecurityGroup resource. -/
structure SGChanges where
  purged : Option (Bool × Bool) := none
  name : Option (String × String) := none
  description : Option (String × String) := none
  manage_all : Option (Bool × Bool) := none
  rules : Option (List Rule × List Rule) := none
deriving DecidableEq

/-- `len(changes) > 0`. -/
def sgChangesNonempty (c : SGChanges) : Bool :=
  c.purged.isSome || c.name.isSome || c.description.isSome || c.manage_all.isSome ||
    c.rules.isSome

/-- An adapter mutation call issued by `SecurityGroupHandler.do_changes`,
either on the group itself or on one of its rules (via `_update_rules`). -/
inductive SGGroupCall where
  | createGroup : String → String → SGGroupCall
  | deleteGroup : String → SGGroupCall
  | updateGroup : String → String → String → SGGroupCall
  | ruleCreate : Rule → SGGroupCall
  | ruleDelete : RVal → SGGroupCall
deriving DecidableEq

/-- Lift the calls of `_update_rules` into the `do_changes` call trace. -/
def sgEmbedCall : SGCall → SGGroupCall
  | .createRule r => .ruleCreate r
  | .deleteRule i => .ruleDelete i

/-- The adapter responses `SecurityGroupHandler.do_changes` consults: the
group listing by name and the id the adapter assigns to a freshly created
group, plus the remote-group resolution environment of `_update_rules`. -/
structure SGDoEnv where
  sgByNameD : String → List SGD
  newGroupId : String
  ruleEnv : SGEnv

/-- The trailing `if "rules" in changes:` block of `do_changes` (src lines
1583-1584): run `_update_rules` with whatever `sg_id` holds (`None` when no
branch assigned it), appending the rule calls to the trace; an exception from
`_update_rules` replaces the pending outcome (it is raised before the final
`return changed`). -/
def sgRulesStep (env : SGDoEnv) (calls : List SGGroupCall) (sg_id : RVal)
    (changes : SGChanges) (outcome : Except String Bool) :
    List SGGroupCall × Except String Bool :=
  match changes.rules with
  | none => (calls, outcome)
  | some (o, n) =>
    match update_rules env.ruleEnv sg_id o n with
    | .error e => (calls, .error e)
    | .ok rcs => (calls ++ rcs.map sgEmbedCall, outcome)

/-- `SecurityGroupHandler.do_changes` (src lines 1557-1586): on an existence
transition, create the group (taking its new id) or look it up and delete it;
otherwise, for any non-empty changeset, update name and description (raising
when the group is missing).  Afterwards — in the *same* call — a `"rules"`
entry runs `_update_rules`.  `changed` is assigned only in the `purged`
branch, so every other path ends in an `UnboundLocalError` at
`return changed` (after the rule calls were already made).  Returns the calls
made together with the outcome. -/
def sgDoChanges (env : SGDoEnv) (res : SGRes) (changes : SGChanges) :
    List SGGroupCall × Except String Bool :=
  match changes.purged with
  | some (p0, _) =>
    if p0 then
      sgRulesStep env [SGGroupCall.createGroup res.name res.description]
        (RVal.rstr env.newGroupId) changes (.ok true)
    else
      match env.sgByNameD res.name with
      | [] => sgRulesStep env [] RVal.rnone changes (.ok true)
      | sg :: _ =>
        sgRulesStep env [SGGroupCall.deleteGroup sg.idG] (RVal.rstr sg.idG) changes (.ok true)
  | none =>
    if sgChangesNonempty changes then
      match env.sgByNameD res.name with
      | [] => ([], .error "Unable to modify unexisting security group")
      | sg :: _ =>
        sgRulesStep env [SGGroupCall.updateGroup sg.idG res.name res.description]
          (RVal.rstr sg.idG) changes
          (.error "UnboundLocalError: local variable changed referenced before assignment")
    else
      sgRulesStep env [] RVal.rnone changes
        (.error "UnboundLocalError: local variable changed referenced before assignment")

/-! ## `FloatingIPHandler` (`openstack::FloatingIP`) -/

/-- The `openstack::FloatingIP` resource. -/
structure FIPRes where
  name : String
  project : String
  port : String
  external_network : String
  purged : Bool
deriving DecidableEq

/-- A neutron floating ip as the handler reads it: its id and address. -/
structure FipD where
  idFip : String
  floating_ip_address : String
deriving DecidableEq

/-- The neutron responses `FloatingIPHandler` consults: port ids by name and
floating ips by (optional) port id. -/
structure FIPEnv where
  portsByName : String → List String
  fipsByPort : Option String → List FipD

/-- `FloatingIPHandler.get_port_id` (src lines 1598-1607): none, one id, or
an exception for several ports with the name. -/
def fipGetPortId (env : FIPEnv) (name : String) : Except String (Option String) :=
  match env.portsByName name with
  | [] => .ok none
  | [pid] => .ok (some pid)
  | _ => .error ("Multiple ports found with name " ++ name)

/-- `FloatingIPHandler.get_floating_ip` (src lines 1609-1616): the id of the
first floating ip on the port, if any. -/
def fipGetFloatingIp (env : FIPEnv) (pid : Option String) : Option String :=
  match env.fipsByPort pid with
  | [] => none
  | f :: _ => some f.idFip

/-- `FloatingIPHandler.check_resource` (src lines 1618-1628): clone the
desired resource and set `purged` from whether a floating ip sits on the
named port (the ambiguous-port exception of `get_port_id` propagates).
Returns the clone and the threaded desired resource. -/
def fipCheckResource (env : FIPEnv) (res : FIPRes) : Except String (FIPRes × FIPRes) := do
  let current := res
  let pid ← fipGetPortId env res.port
  match fipGetFloatingIp env pid with
  | none => pure ({ current with purged := true }, res)
  | some _ => pure ({ current with purged := false }, res)

/-- `FloatingIPHandler.facts` (src lines 1667-1675): resolve the port id —
the ambiguous-port exception propagates, uncaught — and report the address of
the first floating ip on it, or an empty mapping. -/
def fipFacts (env : FIPEnv) (res : FIPRes) : Except String (List (String × String)) := do
  let pid ← fipGetPortId env res.port
  match env.fipsByPort pid with
  | [] => pure []
  | f :: _ => pure [("ip_address", f.floating_ip_address)]

/-! ## `VMHandler.facts` -/

/-- The body of `VMHandler.facts` (src lines 714-733) before the blanket
`except`: from the vm's networks mapping, one fact per address plus a
`subnet_<name>_ip` alias for the first, and an `ip_address` fact from the
first address of the index-1 port's network (an `IndexError` when that
network has no addresses). -/
def vmFactsBody (networks : List (String × List String)) (ports : List VMPort) :
    Except String (List (String × String)) := do
  let facts := networks.foldl
    (fun fs e =>
      (List.range e.2.length).foldl
        (fun fs' i =>
          let fs' := sdictInsert fs' ("subnet_" ++ e.1 ++ "_ip_" ++ toString i) (e.2.getD i "")
          if i = 0 then sdictInsert fs' ("subnet_" ++ e.1 ++ "_ip") (e.2.getD i "")
          else fs')
        fs)
    []
  ports.foldlM
    (fun fs p =>
      if p.index = (1 : Int) then
        match (networks.filter (fun e => e.1 = p.network)) with
        | [] => pure fs
        | e :: _ =>
          match e.2 with
          | [] => throw "IndexError: list index out of range"
          | ip :: _ => pure (sdictInsert fs "ip_address" ip)
      else pure fs)
    facts

/-- `VMHandler.facts` (src lines 711-735): the whole body runs under
`try/except Exception`, so a failing server lookup (`find`) or a failing fact
computation yields the empty mapping rather than an error. -/
def vmFacts (find : Except String (List (String × List String))) (res : HostRes) :
    Except String (List (String × String)) :=
  .ok (match (do
      let networks ← find
      vmFactsBody networks res.ports : Except String (List (String × String))) with
    | .ok m => m
    | .error _ => [])

/-! ## `NeutronHandler._diff` -/

/-- A Python object as the generic `_diff` sees it: attribute values keyed by
name (`getattr` returns `none` for a missing attribute). -/
structure PyObj where
  attrs : List (String × PVal)
deriving DecidableEq

/-- `getattr(o, f)` as an optional value. -/
def pyGetAttr (o : PyObj) (f : String) : Option PVal :=
  match o.attrs.filter (fun e => e.1 = f) with
  | [] => none
  | e :: _ => some e.2

/-- `getattr(o, f)` raising `AttributeError` when the attribute is missing
(the accesses of `_diff` outside its `try` block). -/
def getattrE (o : PyObj) (f : String) : Except String PVal :=
  match pyGetAttr o f with
  | none => .error ("AttributeError: " ++ f)
  | some v => .ok v

/-- The handler context `_diff` resolves names through: the project id
(`get_project_id` never raises, src lines 790-805) and, per field, the
optional `get_<field>_id` converter (absent converters raise
`AttributeError`, which the `try` swallows; a converter itself may raise,
which propagates). -/
structure DiffEnv where
  projId : Option String
  conv : String → Option (Option String → PVal → Except String PVal)

/-- The loop body of `NeutronHandler._diff` (src lines 748-768), threading the
two resource objects explicitly: read both attribute values; when the desired
one is set but the current one is `None`, try to replace them by the current
`<field>_id` attribute and the converted desired value (an `AttributeError`
from either lookup is swallowed, a converter error propagates); record the
pair when they differ. -/
def nhDiffGo (env : DiffEnv) (current desired : PyObj) :
    List String → List (String × PVal × PVal) →
    Except String (List (String × PVal × PVal) × PyObj × PyObj)
  | [], acc => .ok (acc, current, desired)
  | f :: fs, acc => do
    let cv ← getattrE current f
    let dv ← getattrE desired f
    let (cv, dv) ←
      (if dv ≠ PVal.vnone && cv = PVal.vnone then
        match pyGetAttr current (f ++ "_id") with
        | none => pure (cv, dv)
        | some idv =>
          match env.conv f with
          | none => pure (cv, dv)
          | some g => do
            let dv' ← g env.projId dv
            pure (idv, dv')
      else
        pure (cv, dv) : Except String (PVal × PVal))
    let acc := if cv ≠ dv then acc ++ [(f, (cv, dv))] else acc
    nhDiffGo env current desired fs acc

/-- `NeutronHandler._diff`: iterate the declared fields of the resource class,
returning the changeset together with the threaded (possibly updated) current
and desired objects. -/
def nhDiff (env : DiffEnv) (fields : List String) (current desired : PyObj) :
    Except String (List (String × PVal × PVal) × PyObj × PyObj) :=
  nhDiffGo env current desired fields []

/-! ## Helper lemmas -/

theorem dictLookup_dictInsert (d : Rule) (k k' : String) (v : RVal) :
    dictLookup (dictInsert d k v) k' = if k = k' then some v else dictLookup d k' := by
  induction d with
  | nil => simp [dictInsert, dictLookup]
  | cons e t ih =>
    obtain ⟨a, w⟩ := e
    by_cases hak : a = k
    · subst hak
      by_cases hk' : a = k' <;> simp [dictInsert, dictLookup, hk']
    · by_cases hk' : a = k'
      · subst hk'
        have hka : ¬ k = a := fun h => hak h.symm
        simp [dictInsert, dictLookup, hak, hka]
      · simp [dictInsert, dictLookup, hak, hk', ih]

theorem nonDunderKeys_dictInsert (d : Rule) (k : String) (v : RVal)
    (hk : isDunder k = true) :
    nonDunderKeys (dictInsert d k v) = nonDunderKeys d := by
  induction d with
  | nil => simp [dictInsert, nonDunderKeys, hk]
  | cons e t ih =>
    obtain ⟨a, w⟩ := e
    by_cases hak : a = k
    · subst hak
      simp [dictInsert, nonDunderKeys, hk] at ih ⊢
    · simp [dictInsert, nonDunderKeys, hak] at ih ⊢
      by_cases ha : isDunder a = true <;> simp [ha, ih]

theorem mem_nonDunderKeys_not_dunder {d : Rule} {k : String}
    (h : k ∈ nonDunderKeys d) : isDunder k = false := by
  unfold nonDunderKeys at h
  have := List.of_mem_filter h
  simpa using this

theorem allCongr {α : Type} {l : List α} {f g : α → Bool}
    (h : ∀ x ∈ l, f x = g x) : l.all f = l.all g := by
  induction l with
  | nil => rfl
  | cons a t ih =>
    simp only [List.all_cons]
    rw [h a (List.mem_cons_self a t), ih (fun x hx => h x (List.mem_cons_of_mem a hx))]

theorem keySetEqb_comm (a b : List String) : keySetEqb a b = keySetEqb b a := by
  simp [keySetEqb, Bool.and_comm]

theorem keySetEqb_mem {a b : List String} (h : keySetEqb a b = true) :
    (∀ k ∈ a, k ∈ b) ∧ (∀ k ∈ b, k ∈ a) := by
  simp only [keySetEqb, Bool.and_eq_true, List.all_eq_true, decide_eq_true_eq] at h
  exact h

theorem compare_rule_comm (a b : Rule) : compare_rule a b = compare_rule b a := by
  unfold compare_rule
  by_cases h : keySetEqb (nonDunderKeys a) (nonDunderKeys b) = true
  · have h' : keySetEqb (nonDunderKeys b) (nonDunderKeys a) = true := by
      rw [keySetEqb_comm]; exact h
    simp only [h, h', if_true]
    obtain ⟨hab, hba⟩ := keySetEqb_mem h
    apply Bool.eq_iff_iff.mpr
    simp only [List.all_eq_true, beq_iff_eq]
    constructor
    · intro hall x hx
      exact (hall x (hba x hx)).symm
    · intro hall x hx
      exact (hall x (hab x hx)).symm
  · have h2 : keySetEqb (nonDunderKeys b) (nonDunderKeys a) ≠ true := by
      rw [keySetEqb_comm]; exact h
    simp [h, h2]

theorem compare_rule_self (a : Rule) : compare_rule a a = true := by
  unfold compare_rule
  have h : keySetEqb (nonDunderKeys a) (nonDunderKeys a) = true := by
    simp [keySetEqb, List.all_eq_true]
  simp [h, List.all_eq_true]

theorem compare_rule_dictInsert_left (a b : Rule) (k : String) (v : RVal)
    (hk : isDunder k = true) :
    compare_rule (dictInsert a k v) b = compare_rule a b := by
  simp only [compare_rule]
  rw [nonDunderKeys_dictInsert a k v hk]
  by_cases hc : keySetEqb (nonDunderKeys a) (nonDunderKeys b) = true
  · simp only [hc, if_true]
    apply allCongr
    intro x hx
    have hxd : isDunder x = false := mem_nonDunderKeys_not_dunder hx
    have hxk : ¬ k = x := by
      intro h
      subst h
      rw [hk] at hxd
      exact absurd hxd (by simp)
    rw [dictLookup_dictInsert, if_neg hxk]
  · simp [hc]

theorem compare_rule_dictInsert_right (a b : Rule) (k : String) (v : RVal)
    (hk : isDunder k = true) :
    compare_rule a (dictInsert b k v) = compare_rule a b := by
  simp only [compare_rule]
  rw [nonDunderKeys_dictInsert b k v hk]
  by_cases hc : keySetEqb (nonDunderKeys a) (nonDunderKeys b) = true
  · simp only [hc, if_true]
    apply allCongr
    intro x hx
    have hxd : isDunder x = false := mem_nonDunderKeys_not_dunder hx
    have hxk : ¬ k = x := by
      intro h
      subst h
      rw [hk] at hxd
      exact absurd hxd (by simp)
    rw [dictLookup_dictInsert, if_neg hxk]
  · simp [hc]

/-- C9: `_compare_rule` is symmetric and reflexive on rule dictionaries, and
its result depends only on the keys that do not start with `"__"`: adding or
overwriting a `"__"`-prefixed key such as `"__id"` in either argument never
changes the result. -/
theorem compare_rule_equivalence (a b : Rule) (k : String) (v : RVal) :
    compare_rule a b = compare_rule b a ∧
    compare_rule a a = true ∧
    (isDunder k = true →
      compare_rule (dictInsert a k v) b = compare_rule a b ∧
      compare_rule a (dictInsert b k v) = compare_rule a b) :=
  ⟨compare_rule_comm a b, compare_rule_self a,
    fun hk => ⟨compare_rule_dictInsert_left a b k v hk,
      compare_rule_dictInsert_right a b k v hk⟩⟩

/-- Witness for C9 at concrete rules: inserting `"__id"` into one side leaves
the comparison with the other side unchanged. -/
theorem compare_rule_equivalence_witness :
    (isDunder "__id" = true) ∧
    compare_rule (dictInsert [("protocol", RVal.rstr "tcp")] "__id" (RVal.rstr "w"))
        [("protocol", RVal.rstr "tcp"), ("direction", RVal.rstr "ingress")] =
      compare_rule [("protocol", RVal.rstr "tcp")]
        [("protocol", RVal.rstr "tcp"), ("direction", RVal.rstr "ingress")] := by
  have h := compare_rule_equivalence [("protocol", RVal.rstr "tcp")]
    [("protocol", RVal.rstr "tcp"), ("direction", RVal.rstr "ingress")] "__id" (RVal.rstr "w")
  exact ⟨by decide, (h.2.2 (by decide)).1⟩

theorem dictHasKey_dictInsert_ne (d : Rule) (k k' : String) (v : RVal) (h : k ≠ k') :
    dictHasKey (dictInsert d k v) k' = dictHasKey d k' := by
  induction d with
  | nil => simp [dictInsert, dictHasKey, h]
  | cons e t ih =>
    obtain ⟨a, w⟩ := e
    by_cases hak : a = k
    · subst hak
      simp [dictInsert, dictHasKey]
    · simp [dictInsert, dictHasKey, hak, ih]

/-- C5 (amended): with current rules `[X, Y']` and desired rules `[Y, Z]`,
where `Y'` matches `Y` under `_compare_rule` and no other pair matches,
`_update_rules` issues exactly one create call — for `Z`, transformed by the
create pipeline — and exactly one delete call — for the `"__id"` of `X` — and
touches `Y` with no call at all; provided `Z` carries a `"protocol"` key and
no `"remote_group"` key (a desired rule whose remote group does not resolve
is skipped instead of created). -/
theorem update_rules_decomposition (env : SGEnv) (gid : RVal) (X Y' Y Z : Rule)
    (xid pv : RVal)
    (hYY : compare_rule Y' Y = true)
    (hXY : compare_rule X Y = false)
    (hXZ : compare_rule X Z = false)
    (hYZ : compare_rule Y' Z = false)
    (hXneY : X ≠ Y')
    (hXid : dictLookup X "__id" = some xid)
    (hZrg : dictHasKey Z "remote_group" = false)
    (hZpr : dictLookup Z "protocol" = some pv) :
    update_rules env gid [X, Y'] [Y, Z] =
      .ok [SGCall.createRule
          (if pv = RVal.rstr "all" then
            dictInsert (dictInsert (dictInsert Z "ethertype" (RVal.rstr "IPv4"))
              "security_group_id" gid) "protocol" RVal.rnone
          else
            dictInsert (dictInsert Z "ethertype" (RVal.rstr "IPv4"))
              "security_group_id" gid),
        SGCall.deleteRule xid] := by
  have hrg1 : dictHasKey (dictInsert Z "ethertype" (RVal.rstr "IPv4")) "remote_group" = false := by
    rw [dictHasKey_dictInsert_ne _ _ _ _ (by decide)]
    exact hZrg
  have hpr2 : dictLookup (dictInsert (dictInsert Z "ethertype" (RVal.rstr "IPv4"))
      "security_group_id" gid) "protocol" = some pv := by
    rw [dictLookup_dictInsert, if_neg (by decide), dictLookup_dictInsert, if_neg (by decide)]
    exact hZpr
  simp only [update_rules, matchRules, matchRulesGo, firstMatching, hXY, hYY, hXZ, hYZ,
    if_true, if_false, Bool.false_eq_true, listRemove, if_neg hXneY,
    ite_true, ite_false, createCalls, deleteCalls, processNewRule, hrg1, hXid, hpr2,
    bind, Except.bind, pure, Except.pure, Except.map]
  simp [hrg1, hpr2, hXid]

/-- Witness for C5 at concrete rules: current `[X, Y']`, desired `[Y, Z]` with
`Y'` matching `Y` gives exactly one create (for the transformed `Z`) and one
delete (for `X`'s adapter id). -/
theorem update_rules_decomposition_witness :
    update_rules ⟨fun _ => []⟩ (RVal.rstr "g1")
      [[("__id", RVal.rstr "xid"), ("protocol", RVal.rstr "udp"), ("direction", RVal.rstr "ingress")],
       [("__id", RVal.rstr "yid"), ("protocol", RVal.rstr "icmp")]]
      [[("protocol", RVal.rstr "icmp")],
       [("protocol", RVal.rstr "tcp"), ("direction", RVal.rstr "egress")]] =
      .ok [SGCall.createRule
          (if RVal.rstr "tcp" = RVal.rstr "all" then
            dictInsert (dictInsert (dictInsert
              [("protocol", RVal.rstr "tcp"), ("direction", RVal.rstr "egress")]
              "ethertype" (RVal.rstr "IPv4")) "security_group_id" (RVal.rstr "g1"))
              "protocol" RVal.rnone
          else
            dictInsert (dictInsert
              [("protocol", RVal.rstr "tcp"), ("direction", RVal.rstr "egress")]
              "ethertype" (RVal.rstr "IPv4")) "security_group_id" (RVal.rstr "g1")),
        SGCall.deleteRule (RVal.rstr "xid")] :=
  update_rules_decomposition ⟨fun _ => []⟩ (RVal.rstr "g1")
    [("__id", RVal.rstr "xid"), ("protocol", RVal.rstr "udp"), ("direction", RVal.rstr "ingress")]
    [("__id", RVal.rstr "yid"), ("protocol", RVal.rstr "icmp")]
    [("protocol", RVal.rstr "icmp")]
    [("protocol", RVal.rstr "tcp"), ("direction", RVal.rstr "egress")]
    (RVal.rstr "xid") (RVal.rstr "tcp")
    (by decide) (by decide) (by decide) (by decide) (by decide) (by decide) (by decide) (by decide)

/-- Counterexample to C5 as stated: current rules `{X, Y}` and desired rules
`{Y, Z}` where the unmatched desired rule `Z` names a remote group unknown to
the adapter — `_update_rules` issues the delete for `X` but *zero* create
calls, because the create branch skips a rule whose remote group does not
resolve. -/
theorem update_rules_decomposition_cex :
    update_rules ⟨fun _ => []⟩ (RVal.rstr "g1")
      [[("__id", RVal.rstr "xid"), ("protocol", RVal.rstr "udp"), ("direction", RVal.rstr "ingress")],
       [("__id", RVal.rstr "yid"), ("protocol", RVal.rstr "icmp")]]
      [[("protocol", RVal.rstr "icmp")],
       [("protocol", RVal.rstr "tcp"), ("remote_group", RVal.rstr "missing")]] =
      .ok [SGCall.deleteRule (RVal.rstr "xid")] := by
  rfl

theorem mem_saddR_self (l : List Rid) (x : Rid) : x ∈ saddR l x := by
  by_cases h : x ∈ l <;> simp [saddR, h]

theorem mem_saddR_of_mem {l : List Rid} {x : Rid} (y : Rid) (h : x ∈ l) : x ∈ saddR l y := by
  by_cases hy : y ∈ l <;> simp [saddR, hy, h]

/-- Counterexample to C3 as stated: a batch holding one network whose project
name is not declared — `openstack_dependencies` succeeds silently, reporting
no configuration error and adding no edge. -/
theorem openstack_dependencies_silent_skip_cex :
    openstack_dependencies [{ kind := OSKind.network, name := "n1", projectRef := "missing" }] =
      .ok [((OSKind.network, "n1"), [])] := by
  rfl

/-- C3 (amended): a missing project reference of a network is silently
skipped (no error, no edge); a missing project reference of a subnet raises a
bare `KeyError` that carries only the missing name; and only
`keystone_dependencies` reports a missing reference with the referencing
role's identity and the missing name. -/
theorem dependency_missing_reference_behavior :
    (∀ n pX : String,
      openstack_dependencies [{ kind := OSKind.network, name := n, projectRef := pX }] =
        .ok [((OSKind.network, n), [])]) ∧
    (∀ sn pX nX : String,
      openstack_dependencies
        [{ kind := OSKind.subnet, name := sn, projectRef := pX, networkRef := nX }] =
        .error ("KeyError: " ++ pX)) ∧
    (∀ rid p u : String,
      keystone_dependencies
        [{ kind := OSKind.role, name := rid, projectRef := p, userRef := u, roleId := rid }] =
        .error ("The project " ++ p ++ " of role " ++ rid ++ " is not defined in the model.")) :=
  ⟨fun _ _ => rfl, fun _ _ _ => rfl, fun _ _ _ => rfl⟩

/-- C6: for the batch Project `p1`, Network `n1` (project `p1`) and Subnet
`s1` (network `n1`, project `p1`), `openstack_dependencies` adds exactly the
edges n1→p1, s1→p1 and s1→n1 beyond the declared `requires` sets, and every
index assignment respecting the resulting edges puts p1 before n1 and both
before s1. -/
theorem openstack_dependencies_project_network_subnet (Rp Rn Rs : List Rid) :
    openstack_dependencies
      [{ kind := OSKind.project, name := "p1", requires := Rp },
       { kind := OSKind.network, name := "n1", projectRef := "p1", requires := Rn },
       { kind := OSKind.subnet, name := "s1", projectRef := "p1", networkRef := "n1",
         requires := Rs }] =
      .ok [((OSKind.project, "p1"), Rp),
        ((OSKind.network, "n1"), saddR Rn (OSKind.project, "p1")),
        ((OSKind.subnet, "s1"),
          saddR (saddR Rs (OSKind.project, "p1")) (OSKind.network, "n1"))] ∧
    (∀ idx : Rid → Nat,
      (∀ x g l,
        (g, l) ∈ [((OSKind.project, "p1"), Rp),
          ((OSKind.network, "n1"), saddR Rn (OSKind.project, "p1")),
          ((OSKind.subnet, "s1"),
            saddR (saddR Rs (OSKind.project, "p1")) (OSKind.network, "n1"))] →
        x ∈ l → idx x < idx g) →
      idx (OSKind.project, "p1") < idx (OSKind.network, "n1") ∧
      idx (OSKind.project, "p1") < idx (OSKind.subnet, "s1") ∧
      idx (OSKind.network, "n1") < idx (OSKind.subnet, "s1")) := by
  constructor
  · rfl
  · intro idx h
    refine ⟨?_, ?_, ?_⟩
    · exact h (OSKind.project, "p1") (OSKind.network, "n1")
        (saddR Rn (OSKind.project, "p1")) (by simp)
        (mem_saddR_self Rn (OSKind.project, "p1"))
    · exact h (OSKind.project, "p1") (OSKind.subnet, "s1")
        (saddR (saddR Rs (OSKind.project, "p1")) (OSKind.network, "n1")) (by simp)
        (mem_saddR_of_mem _ (mem_saddR_self Rs (OSKind.project, "p1")))
    · exact h (OSKind.network, "n1") (OSKind.subnet, "s1")
        (saddR (saddR Rs (OSKind.project, "p1")) (OSKind.network, "n1")) (by simp)
        (mem_saddR_self (saddR Rs (OSKind.project, "p1")) (OSKind.network, "n1"))

/-- Witness for C6: with no declared edges and the index order p1, n1, s1,
the inferred edges are respected. -/
theorem openstack_dependencies_project_network_subnet_witness :
    openstack_dependencies
      [{ kind := OSKind.project, name := "p1" },
       { kind := OSKind.network, name := "n1", projectRef := "p1" },
       { kind := OSKind.subnet, name := "s1", projectRef := "p1", networkRef := "n1" }] =
      .ok [((OSKind.project, "p1"), []),
        ((OSKind.network, "n1"), saddR [] (OSKind.project, "p1")),
        ((OSKind.subnet, "s1"),
          saddR (saddR [] (OSKind.project, "p1")) (OSKind.network, "n1"))] ∧
    ((fun r : Rid => if r = (OSKind.project, "p1") then (0 : Nat)
        else if r = (OSKind.network, "n1") then 1 else 2) (OSKind.project, "p1") <
      (fun r : Rid => if r = (OSKind.project, "p1") then (0 : Nat)
        else if r = (OSKind.network, "n1") then 1 else 2) (OSKind.network, "n1")) := by
  have h := openstack_dependencies_project_network_subnet [] [] []
  refine ⟨h.1, ?_⟩
  refine (h.2 (fun r : Rid => if r = (OSKind.project, "p1") then (0 : Nat)
    else if r = (OSKind.network, "n1") then 1 else 2) ?_).1
  intro x g l hm hx
  simp only [List.mem_cons, List.mem_singleton] at hm
  rcases hm with hm | hm | hm | hm
  · have hl : l = [] := congrArg Prod.snd hm
    subst hl
    simp at hx
  · have hg : g = (OSKind.network, "n1") := congrArg Prod.fst hm
    have hl : l = saddR [] (OSKind.project, "p1") := congrArg Prod.snd hm
    subst hg hl
    simp [saddR] at hx
    subst hx
    decide
  · have hg : g = (OSKind.subnet, "s1") := congrArg Prod.fst hm
    have hl : l = saddR (saddR [] (OSKind.project, "p1")) (OSKind.network, "n1") :=
      congrArg Prod.snd hm
    subst hg hl
    simp [saddR] at hx
    rcases hx with hx | hx <;> subst hx <;> decide
  · cases hm

/-- Counterexample to C1 as stated: a security-group changeset holding both
the create transition `purged: (True, False)` and a rules difference — in the
*same* `do_changes` call the handler creates the group *and* issues a
create-rule call for the unmatched desired rule, instead of deferring the
attribute edit. -/
theorem sg_do_changes_create_with_rules_cex :
    sgDoChanges
      { sgByNameD := fun _ => [], newGroupId := "gid1", ruleEnv := ⟨fun _ => []⟩ }
      { name := "web", project := "p", description := "d", manage_all := true,
        rules := [], purged := false }
      { purged := some (true, false),
        rules := some ([],
          [[("protocol", RVal.rstr "tcp"), ("direction", RVal.rstr "ingress")]]) } =
      ([SGGroupCall.createGroup "web" "d",
        SGGroupCall.ruleCreate
          [("protocol", RVal.rstr "tcp"), ("direction", RVal.rstr "ingress"),
           ("ethertype", RVal.rstr "IPv4"), ("security_group_id", RVal.rstr "gid1")]],
        .ok true) := by
  rfl

/-- C1 (amended): `RouterHandler.do_changes` does satisfy existence
exclusivity — a delete (`purged: (False, True)`) issues exactly the delete
and returns, and a create issues exactly `create_router` and then aborts with
the `TypeError` of the one-argument internal `facts` call before any
subnet/gateway/route call, even when the changeset also lists such
differences.  `SecurityGroupHandler.do_changes`, by contrast, performs the
rule edits in the same apply call as the existence transition (see the
counterexample). -/
theorem router_do_changes_existence_exclusive (env : RouterEnv) (res : RouterRes)
    (changes : RouterChanges) (pid : String)
    (hpid : env.projectId = some pid) :
    (changes.purged = some (false, true) →
      routerDoChanges env res changes = ([RouterCall.deleteRouter res.idA], .ok true)) ∧
    (∀ p0, changes.purged = some (p0, false) →
      routerDoChanges env res changes =
        ([RouterCall.createRouter res.name pid], .error factsTypeError)) := by
  constructor
  · intro hpurged
    simp [routerDoChanges, hpid, hpurged]
  · intro p0 hpurged
    simp [routerDoChanges, hpid, hpurged]

/-- Witness for C1: a concrete delete issues only the delete call, and a
concrete create with a subnet difference in the same changeset issues only
the create call before the `TypeError`. -/
theorem router_do_changes_existence_exclusive_witness :
    routerDoChanges { listRoutersResp := none, projectId := some "pid" }
      { name := "r1", project := "p", subnets := [], gateway := "", ports := [],
        routes := [], purged := false, idA := "rid-1" }
      { purged := some (false, true), subnets := some (["s1"], []) } =
      ([RouterCall.deleteRouter "rid-1"], .ok true) ∧
    routerDoChanges { listRoutersResp := none, projectId := some "pid" }
      { name := "r2", project := "p", subnets := ["s1"], gateway := "", ports := [],
        routes := [], purged := false, idA := "rid-2" }
      { purged := some (true, false), subnets := some ([], ["s1"]) } =
      ([RouterCall.createRouter "r2" "pid"], .error factsTypeError) :=
  ⟨(router_do_changes_existence_exclusive _ _ _ "pid" rfl).1 rfl,
   (router_do_changes_existence_exclusive _ _ _ "pid" rfl).2 true rfl⟩

/-- Counterexample to C2 as stated: with two neutron ports answering the
port-name query, `FloatingIPHandler.facts` propagates the ambiguous-match
exception instead of returning an empty mapping. -/
theorem fip_facts_raises_cex :
    fipFacts { portsByName := fun _ => ["a", "b"], fipsByPort := fun _ => [] }
      { name := "f1", project := "p", port := "p0", external_network := "e", purged := false } =
      .error ("Multiple ports found with name p0") := by
  rfl

/-- C2 (amended): `VMHandler.facts` never raises — an adapter failure or a
failing fact computation yields the empty mapping — but
`FloatingIPHandler.facts` propagates the ambiguous-port exception whenever
more than one port carries the resource's port name. -/
theorem facts_error_swallowing :
    (∀ e res, vmFacts (.error e) res = .ok []) ∧
    (∀ find res, ∃ m, vmFacts find res = .ok m) ∧
    (∀ env res, 2 ≤ (env.portsByName res.port).length →
      fipFacts env res = .error ("Multiple ports found with name " ++ res.port)) := by
  refine ⟨fun e res => rfl, fun find res => ⟨_, rfl⟩, ?_⟩
  intro env res h
  simp only [fipFacts, fipGetPortId]
  rcases hl : env.portsByName res.port with _ | ⟨a, _ | ⟨b, t⟩⟩
  · rw [hl] at h
    simp at h
  · rw [hl] at h
    simp at h
  · simp [hl, bind, Except.bind]

/-- Witness for C2: a failed server lookup yields the empty fact mapping, and
an ambiguous port name makes `FloatingIPHandler.facts` raise. -/
theorem facts_error_swallowing_witness :
    vmFacts (.error "boom")
      { name := "vm", flavor := "f", image := "i", key_name := "k", key_value := "kv",
        user_data := "", ports := [], security_groups := [], purged := false } = .ok [] ∧
    fipFacts { portsByName := fun _ => ["x", "y"], fipsByPort := fun _ => [] }
      { name := "f2", project := "p", port := "q0", external_network := "e", purged := false } =
      .error ("Multiple ports found with name q0") := by
  refine ⟨facts_error_swallowing.1 "boom" _, facts_error_swallowing.2.2 _ _ ?_⟩
  decide

/-- Counterexample to C4 as stated: with an *empty* changeset and a keypair
not yet known to nova, `VMHandler.do_changes` still issues a keypair-create
mutation call. -/
theorem vm_do_changes_empty_keypair_cex :
    vmDoChanges
      { flavors := fun _ => none, portIdByName := fun _ => none,
        subnetNetByName := fun _ => none, sgNames := [] }
      { servers := [], keypairs := [] }
      { name := "vm1", flavor := "f", image := "i", key_name := "k", key_value := "kv",
        user_data := "", ports := [], security_groups := [], purged := false }
      VMChanges.empty =
      .ok ([NovaCall.keypairCreate "k" "kv"],
        { servers := [], keypairs := [("k", "kv")] }, true) := by
  rfl

/-- C4 (amended): with an empty changeset `VMHandler.do_changes` performs no
server create, delete or security-group call — the only mutation it may issue
is the unconditional keypair ensure, which creates the keypair exactly when
`resource.key_name` is not among the existing keypairs and leaves the server
list untouched either way. -/
theorem vm_do_changes_empty_changeset (env : VMEnv) (cloud : NovaCloud) (res : HostRes) :
    vmDoChanges env cloud res VMChanges.empty =
      .ok ((if res.key_name ∈ cloud.keypairs.map Prod.fst then ([] : List NovaCall)
          else [NovaCall.keypairCreate res.key_name res.key_value]),
        (if res.key_name ∈ cloud.keypairs.map Prod.fst then cloud
          else { cloud with keypairs := cloud.keypairs ++ [(res.key_name, res.key_value)] }),
        true) := by
  by_cases h : res.key_name ∈ cloud.keypairs.map Prod.fst <;>
    simp [vmDoChanges, VMChanges.empty, h, pure, Except.pure]

/-- C7: the field loop of `NeutronHandler._diff` leaves both resource objects
unchanged — whenever it returns a changeset, the threaded current and desired
objects it hands back are exactly the ones it was given (the embedding makes
every Python attribute assignment a record update of the threaded objects, so
an update would surface here). -/
theorem nh_diff_no_mutation (env : DiffEnv) (current desired : PyObj)
    (fields : List String) (acc ch : List (String × PVal × PVal)) (c d : PyObj)
    (h : nhDiffGo env current desired fields acc = .ok (ch, c, d)) :
    c = current ∧ d = desired := by
  induction fields generalizing acc with
  | nil =>
    simp only [nhDiffGo, Except.ok.injEq, Prod.mk.injEq] at h
    exact ⟨h.2.1.symm, h.2.2.symm⟩
  | cons f fs ih =>
    simp only [nhDiffGo, bind, Except.bind] at h
    split at h
    · exact Except.noConfusion h
    · split at h
      · exact Except.noConfusion h
      · split at h
        · exact Except.noConfusion h
        · exact ih _ h

/-- Witness for C7: one concrete diff run returns the two objects untouched. -/
theorem nh_diff_no_mutation_witness :
    PyObj.mk [("a", PVal.vstr "1")] = PyObj.mk [("a", PVal.vstr "1")] ∧
    PyObj.mk [("a", PVal.vstr "2")] = PyObj.mk [("a", PVal.vstr "2")] :=
  nh_diff_no_mutation { projId := none, conv := fun _ => none }
    (PyObj.mk [("a", PVal.vstr "1")]) (PyObj.mk [("a", PVal.vstr "2")]) ["a"] []
    [("a", (PVal.vstr "1", PVal.vstr "2"))]
    (PyObj.mk [("a", PVal.vstr "1")]) (PyObj.mk [("a", PVal.vstr "2")]) rfl

/-- Counterexample to C10 as stated: `RouterHandler`, `SubnetHandler` and
`RouterPortHandler` never return a populated clone — their `check_resource`
calls the three-parameter `facts` method with one argument and raises
`TypeError` on every invocation. -/
theorem check_resource_type_error_cex :
    routerCheckResource { listRoutersResp := none, projectId := none }
      { name := "r1", project := "p", subnets := [], gateway := "", ports := [],
        routes := [], purged := false, idA := "x" } = .error factsTypeError ∧
    subnetCheckResource { listSubnetsResp := none }
      { name := "s1", project := "p", network_address := "", dhcp := true,
        allocation_start := "", allocation_end := "", network := "n",
        network_id := "", purged := false, idA := PVal.vint 0 } =
      .error factsTypeError ∧
    routerPortCheckResource { listPortsResp := none }
      { name := "rp1", project := "p", address := "", subnet := "s", router := "r",
        network := "n", purged := false, idA := PVal.vint 0, subnet_id := "",
        router_id := "", network_id := "" } = .error factsTypeError :=
  ⟨rfl, rfl, rfl⟩

/-- C10 (amended): the four handlers whose `check_resource` actually runs —
VM, HostPort, SecurityGroup and FloatingIP — build their observation into the
fresh clone and return the threaded desired resource exactly as it was given;
the remaining three — Router, Subnet and RouterPort — raise `TypeError` on
every call (their internal `self.facts(resource)` call misses the `ctx`
argument), never returning a populated clone, and so never touch the desired
resource either. -/
theorem check_resource_desired_frame :
    (∀ cloud res, (vmCheckResource cloud res).map Prod.snd =
      (vmCheckResource cloud res).map (fun _ => res)) ∧
    (∀ env res, (hostPortCheckResource env res).map Prod.snd =
      (hostPortCheckResource env res).map (fun _ => res)) ∧
    (∀ env res, (sgCheckResource env res).map Prod.snd =
      (sgCheckResource env res).map (fun _ => res)) ∧
    (∀ env res, (fipCheckResource env res).map Prod.snd =
      (fipCheckResource env res).map (fun _ => res)) ∧
    (∀ env res, routerCheckResource env res = .error factsTypeError) ∧
    (∀ env res, subnetCheckResource env res = .error factsTypeError) ∧
    (∀ env res, routerPortCheckResource env res = .error factsTypeError) := by
  refine ⟨?_, ?_, ?_, ?_, ?_, ?_, ?_⟩ <;> intro env res
  · simp only [vmCheckResource, bind, Except.bind, pure, Except.pure]
    (repeat' split) <;> simp [Except.map]
  · simp only [hostPortCheckResource, bind, Except.bind, pure, Except.pure]
    (repeat' split) <;> simp [Except.map]
  · simp only [sgCheckResource, bind, Except.bind, pure, Except.pure]
    (repeat' split) <;> simp [Except.map]
  · simp only [fipCheckResource, bind, Except.bind, pure, Except.pure]
    (repeat' split) <;> simp [Except.map]
  · rfl
  · rfl
  · rfl

/-- Counterexample to C8 as stated: a Host whose desired security group `"s"`
does not exist in the cloud.  The first pass sees only the existence
transition (the clone hides the group difference), the create silently drops
the unresolvable group, and the *second* pass reports a non-empty
`security_groups` changeset — with no external interference, and the field was
not part of the first-pass changeset deferred by the existence transition. -/
theorem vm_two_pass_missing_sg_cex :
    vmTwoPass
      { flavors := fun _ => some "fid", portIdByName := fun _ => none,
        subnetNetByName := fun _ => none, sgNames := [] }
      { servers := [], keypairs := [("k", "kv")] }
      { name := "vm1", flavor := "f", image := "i", key_name := "k", key_value := "kv",
        user_data := "", ports := [], security_groups := ["s"], purged := false } =
      .ok ({ purged := some (true, false) }, { security_groups := some ([], ["s"]) }) ∧
    ({ security_groups := some ([], ["s"]) } : VMChanges) ≠ VMChanges.empty := by
  constructor
  · rfl
  · decide

theorem vmBuildSgList_all_present (env : VMEnv) (l : List String)
    (h : ∀ g ∈ l, g ∈ env.sgNames) : vmBuildSgList env l = l := by
  induction l with
  | nil => rfl
  | cons g t ih =>
    have hg : g ∈ env.sgNames := h g (List.mem_cons_self g t)
    simp only [vmBuildSgList] at ih ⊢
    rw [List.foldr_cons, if_pos hg, ih (fun x hx => h x (List.mem_cons_of_mem g hx))]

theorem vmDiff_self (r : HostRes) : vmDiff r r = VMChanges.empty := by
  simp [vmDiff, VMChanges.empty]

/-- C8 (amended): the read→diff→apply cycle run twice against the same
desired Host state yields an empty second changeset, *provided* every
security group the Host references exists in the cloud (besides: no server
with that name yet, a resolvable flavor, and a non-purged desired state) —
the first pass is the pure existence transition and the second finds nothing
left to change.  Without the security-group proviso the claim fails (see the
counterexample): `_build_sg_list` silently drops unresolvable groups at
create time. -/
theorem vm_two_pass_idempotent (env : VMEnv) (cloud : NovaCloud) (res : HostRes)
    (fid : String)
    (hNoServer : cloud.servers.filter (fun s => s.name = res.name) = [])
    (hFlavor : env.flavors res.flavor = some fid)
    (hSGs : ∀ g ∈ res.security_groups, g ∈ env.sgNames)
    (hPurged : res.purged = false) :
    vmTwoPass env cloud res = .ok ({ purged := some (true, false) }, VMChanges.empty) := by
  have hsgl : vmBuildSgList env res.security_groups = res.security_groups :=
    vmBuildSgList_all_present env _ hSGs
  have hcheck1 : vmCheckResource cloud res = .ok ({ res with purged := true }, res) := by
    simp [vmCheckResource, vmGetVm, hNoServer, bind, Except.bind, pure, Except.pure]
  have hch1 : vmDiff { res with purged := true } res = { purged := some (true, false) } := by
    simp [vmDiff, hPurged]
  have hne : ({ purged := some (true, false) } : VMChanges) ≠ VMChanges.empty := by
    decide
  have hdo : vmDoChanges env cloud res { purged := some (true, false) } =
      .ok ((if res.key_name ∈ cloud.keypairs.map Prod.fst then ([] : List NovaCall)
          else [NovaCall.keypairCreate res.key_name res.key_value]) ++
          [NovaCall.serversCreate res.name fid (vmBuildSgList env res.security_groups)
            res.image res.key_name res.user_data (vmBuildNicList env res.ports)],
        { servers := cloud.servers ++ [⟨res.name, vmBuildSgList env res.security_groups⟩],
          keypairs := if res.key_name ∈ cloud.keypairs.map Prod.fst then cloud.keypairs
            else cloud.keypairs ++ [(res.key_name, res.key_value)] }, true) := by
    by_cases hk : res.key_name ∈ cloud.keypairs.map Prod.fst <;>
      simp [vmDoChanges, hk, hFlavor, bind, Except.bind, pure, Except.pure]
  have hres2 : ({ res with purged := false, security_groups := res.security_groups } : HostRes) =
      res := by
    rw [← hPurged]
  have hcheck2 : ∀ kp : List (String × String),
      vmCheckResource { servers := cloud.servers ++
          [⟨res.name, vmBuildSgList env res.security_groups⟩], keypairs := kp } res =
        .ok (res, res) := by
    intro kp
    have hfil : (cloud.servers ++
        [(⟨res.name, vmBuildSgList env res.security_groups⟩ : NServer)]).filter
          (fun s => s.name = res.name) =
        [⟨res.name, vmBuildSgList env res.security_groups⟩] := by
      rw [List.filter_append, hNoServer]
      simp
    simp only [vmCheckResource, vmGetVm, hfil, bind, Except.bind, pure, Except.pure]
    rw [hsgl]
    rw [hres2]
  simp only [vmTwoPass, vmOnePass, bind, Except.bind, hcheck1, hch1]
  rw [if_neg hne]
  simp only [hdo, pure, Except.pure]
  rw [hcheck2]
  simp [vmDiff_self, VMChanges.empty, pure, Except.pure]

/-- Witness for C8: a concrete Host whose only security group exists in the
cloud converges in one pass; the second changeset is empty. -/
theorem vm_two_pass_idempotent_witness :
    vmTwoPass
      { flavors := fun _ => some "fid", portIdByName := fun _ => none,
        subnetNetByName := fun _ => none, sgNames := ["s"] }
      { servers := [], keypairs := [] }
      { name := "vm1", flavor := "f", image := "i", key_name := "k", key_value := "kv",
        user_data := "", ports := [], security_groups := ["s"], purged := false } =
      .ok ({ purged := some (true, false) }, VMChanges.empty) :=
  vm_two_pass_idempotent _ _ _ "fid" rfl rfl (fun _ hg => hg) rfl
